import Mathlib

/-
Verification of the session-gated API proxy (src/main.py) against its
specification.  The Flask application is shallowly embedded: each route
handler becomes a pure Lean function from the broker oracle, the session
and the request to a result record holding the HTTP response, the updated
session and the trace of external (network) calls attempted.  The
`before_request` gate and the URL dispatch are modelled explicitly, so a
request to any route goes through the same path as in the Python code.
-/

set_option autoImplicit false

namespace ZerodhaPoc

/-- JSON-like values: the data exchanged between the Flask app, the
session store and the broker SDK (Python `None`/`bool`/`int`/`str`/
`list`/`dict`). -/
inductive Value where
  | null
  | bool (b : Bool)
  | num (n : Int)
  | str (s : String)
  | arr (elems : List Value)
  | obj (fields : List (String × Value))

/-- First-match lookup in a Python-dict-like association list. -/
def lookupKey : List (String × Value) → String → Option Value
  | [], _ => none
  | (k, v) :: rest, key => if k = key then some v else lookupKey rest key

/-- Python `d[k] = v`: replace the value of an existing key in place,
otherwise append the binding (insertion order is preserved, as in a
Python dict). -/
def setKey : List (String × Value) → String → Value → List (String × Value)
  | [], key, v => [(key, v)]
  | (k, w) :: rest, key, v =>
      if k = key then (key, v) :: rest else (k, w) :: setKey rest key v

/-- The Flask server-side session: a dict of string keys to values.
`session.clear()` is the empty list. -/
abbrev Session := List (String × Value)

/-- Python `d.get(k)`: `None` when the key is absent. -/
def pyDictGet (d : List (String × Value)) (k : String) : Value :=
  (lookupKey d k).getD Value.null

/-- Lookup of a query parameter in `request.args`. -/
def argsGet : List (String × String) → String → Option String
  | [], _ => none
  | (k, v) :: rest, key => if k = key then some v else argsGet rest key

/-- The order parameters passed to `kite.place_order` in `place_order`
(src/main.py:138-147): `variety` is the constant `kite.VARIETY_REGULAR`,
`quantity` has been coerced by `int(...)`, the other fields are the raw
values of `order_data.get(...)` (so `null` when absent). -/
structure OrderParams where
  variety : String
  exchange : Value
  tradingsymbol : Value
  transaction_type : Value
  quantity : Int
  product : Value
  order_type : Value

/-- The broker SDK (the `kite` object), modelled as an oracle: each
operation either returns a value or raises an exception carrying a
message string.  Network operations take the access credential bound to
the client at call time. `set_access_token` is the local binding of the
credential to the client, not a network call. -/
structure Broker where
  login_url : String
  generate_session : String → Except String (List (String × Value))
  set_access_token : Value → Except String Unit
  profile : Value → Except String (List (String × Value))
  margins : Value → Except String Value
  holdings : Value → Except String Value
  place_order : Value → OrderParams → Except String (List (String × Value))

/-- One attempted external (network) call, recording the credential it
was made with. -/
inductive ExtCall where
  | generate_session (request_token : String)
  | profile (credential : Value)
  | margins (credential : Value)
  | holdings (credential : Value)
  | place_order (credential : Value) (params : OrderParams)

/-- An HTTP response produced by the app: a JSON body with a status
code, a 302 redirect, or the framework 404 page for unmatched routes. -/
inductive FlaskResponse where
  | json (status : Nat) (body : Value)
  | redirect (location : String)
  | notFound

/-- Status code of a response (`redirect(...)` is 302, the framework
not-found page is 404). -/
def FlaskResponse.status : FlaskResponse → Nat
  | .json s _ => s
  | .redirect _ => 302
  | .notFound => 404

/-- An incoming HTTP request: path, method, query arguments and JSON
body (`Value.null` when the request carries no JSON). -/
structure HttpRequest where
  path : String
  method : String
  args : List (String × String)
  jsonBody : Value

/-- Result of handling one request: the response, the session after the
request, and the external calls attempted while handling it. -/
structure StepResult where
  response : FlaskResponse
  session : Session
  calls : List ExtCall

/-- Embeds `login` (src/main.py:32-40): redirect to the broker login
URL; no session change, no network call (`kite.login_url()` builds the
URL locally from the API key). -/
def login (b : Broker) (s : Session) : StepResult :=
  { response := .redirect b.login_url, session := s, calls := [] }

/-- Embeds `callback` (src/main.py:42-69).  A missing or empty
`request_token` (both falsy in `if not request_token`) yields 400 before
any external call.  Otherwise `kite.generate_session` is called; on
exception the handler returns 400 and the session is left exactly as it
was.  On success `data['access_token']` and `data['user_id']` are stored
in the session (a `KeyError` on either index is caught by the same
`except`, after any assignment already made) and the browser is
redirected to the configured front-end URL `fe`. -/
def callback (b : Broker) (fe : String) (s : Session) (req : HttpRequest) : StepResult :=
  match argsGet req.args "request_token" with
  | none =>
      { response := .json 400 (.obj [("error", .str "No request token found")]),
        session := s, calls := [] }
  | some tok =>
      if tok = "" then
        { response := .json 400 (.obj [("error", .str "No request token found")]),
          session := s, calls := [] }
      else
        match b.generate_session tok with
        | .error e =>
            { response := .json 400 (.obj [("error", .str ("Authentication failed: " ++ e))]),
              session := s, calls := [ExtCall.generate_session tok] }
        | .ok data =>
            match lookupKey data "access_token" with
            | none =>
                { response := .json 400
                    (.obj [("error", .str "Authentication failed: 'access_token'")]),
                  session := s, calls := [ExtCall.generate_session tok] }
            | some atok =>
                match lookupKey data "user_id" with
                | none =>
                    { response := .json 400
                        (.obj [("error", .str "Authentication failed: 'user_id'")]),
                      session := setKey s "access_token" atok,
                      calls := [ExtCall.generate_session tok] }
                | some uid =>
                    { response := .redirect fe,
                      session := setKey (setKey s "access_token" atok) "user_id" uid,
                      calls := [ExtCall.generate_session tok] }

/-- Embeds `check_auth` (src/main.py:71-79): pure read of the session,
no external call.  `session.get('user_id')` is `None` (JSON `null`) when
absent. -/
def check_auth (s : Session) : StepResult :=
  if (lookupKey s "access_token").isSome then
    { response := .json 200 (.obj [("authenticated", .bool true),
        ("user_id", pyDictGet s "user_id")]),
      session := s, calls := [] }
  else
    { response := .json 401 (.obj [("authenticated", .bool false)]),
      session := s, calls := [] }

/-- Python `str.startswith(p)`, computed on the character lists so that
it evaluates on literals. -/
def strStartsWith (s p : String) : Bool :=
  List.isPrefixOf p.toList s.toList

/-- Outcome of the `before_request` hook: either a short-circuit
response (the route handler is never invoked) or permission to proceed,
carrying the credential bound to the client for this request (`none` on
non-`/api/` paths, where no binding happens). -/
inductive GateOutcome where
  | halt (result : StepResult)
  | pass (bound : Option Value)

/-- Embeds `before_api_request` (src/main.py:83-100).  Flask runs it
before every request; it acts only when the path starts with `/api/`.
A session without the `access_token` key yields 401 at once.  Otherwise
`kite.set_access_token` binds the stored credential; if that raises, the
whole session is cleared and 401 is returned. -/
def before_api_request (b : Broker) (s : Session) (req : HttpRequest) : GateOutcome :=
  if strStartsWith req.path "/api/" then
    match lookupKey s "access_token" with
    | none =>
        .halt { response := .json 401 (.obj [("error", .str "Not authenticated")]),
                session := s, calls := [] }
    | some tok =>
        match b.set_access_token tok with
        | .error e =>
            .halt { response := .json 401
                      (.obj [("error", .str ("Session expired or invalid: " ++ e))]),
                    session := [], calls := [] }
        | .ok _ => .pass (some tok)
  else .pass none

/-- Embeds `get_profile` (src/main.py:102-115): `kite.profile()` then
`kite.margins()`; the two results are merged by `{**profile, "margins":
margins}`.  An exception from either call (the second is not attempted
if the first raises) yields 500 with the message prefixed by `Failed to
fetch profile: `. -/
def get_profile (b : Broker) (tok : Value) (s : Session) : StepResult :=
  match b.profile tok with
  | .error e =>
      { response := .json 500 (.obj [("error", .str ("Failed to fetch profile: " ++ e))]),
        session := s, calls := [ExtCall.profile tok] }
  | .ok p =>
      match b.margins tok with
      | .error e =>
          { response := .json 500 (.obj [("error", .str ("Failed to fetch profile: " ++ e))]),
            session := s, calls := [ExtCall.profile tok, ExtCall.margins tok] }
      | .ok m =>
          { response := .json 200 (.obj (setKey p "margins" m)),
            session := s, calls := [ExtCall.profile tok, ExtCall.margins tok] }

/-- Embeds `get_holdings` (src/main.py:117-126): one external call; an
exception yields 500 with the message prefixed by `Failed to fetch
holdings: `. -/
def get_holdings (b : Broker) (tok : Value) (s : Session) : StepResult :=
  match b.holdings tok with
  | .error e =>
      { response := .json 500 (.obj [("error", .str ("Failed to fetch holdings: " ++ e))]),
        session := s, calls := [ExtCall.holdings tok] }
  | .ok h =>
      { response := .json 200 h, session := s, calls := [ExtCall.holdings tok] }

/-- Python type name of a value, as it appears in `TypeError`
messages. -/
def pyTypeName : Value → String
  | .null => "'NoneType'"
  | .bool _ => "'bool'"
  | .num _ => "'int'"
  | .str _ => "'str'"
  | .arr _ => "'list'"
  | .obj _ => "'dict'"

/-- Digits of a decimal literal, or `none` if the list is empty or holds
a non-digit. -/
def decDigits (cs : List Char) : Option Nat :=
  if cs ≠ [] ∧ cs.all Char.isDigit then
    some (cs.foldl (fun n c => 10 * n + (c.toNat - 48)) 0)
  else none

/-- Strip leading and trailing whitespace from a character list. -/
def trimChars (cs : List Char) : List Char :=
  ((cs.dropWhile Char.isWhitespace).reverse.dropWhile Char.isWhitespace).reverse

/-- Python `int(s)` on a string: surrounding whitespace is stripped, an
optional sign is allowed, then decimal digits. -/
def parseIntLit (s : String) : Option Int :=
  match trimChars s.toList with
  | '+' :: rest => (decDigits rest).map Int.ofNat
  | '-' :: rest => (decDigits rest).map (fun n => -(Int.ofNat n))
  | cs => (decDigits cs).map Int.ofNat

/-- Python `int(v)`: identity on integers, `True`/`False` are 1/0,
strings are parsed as decimal literals (`ValueError` otherwise), and any
other type raises `TypeError`.  The error string follows CPython's
message. -/
def pyInt : Value → Except String Int
  | .num n => .ok n
  | .bool b => .ok (if b then 1 else 0)
  | .str s =>
      match parseIntLit s with
      | some n => .ok n
      | none => .error ("invalid literal for int() with base 10: '" ++ s ++ "'")
  | v => .error ("int() argument must be a string, a bytes-like object or a real number, not "
      ++ pyTypeName v)

/-- Evaluation of the keyword arguments of `kite.place_order`
(src/main.py:138-147).  When the JSON body is a dict, the
`order_data.get(...)` calls cannot fail and only `int(...)` on the
quantity can raise, in which case no argument evaluation after it
matters and the external call is never made.  When the body is not a
dict, the first `.get` raises `AttributeError`. -/
def buildOrderParams (body : Value) : Except String OrderParams :=
  match body with
  | .obj d =>
      match pyInt (pyDictGet d "quantity") with
      | .error e => .error e
      | .ok q =>
          .ok { variety := "regular",
                exchange := pyDictGet d "exchange",
                tradingsymbol := pyDictGet d "tradingsymbol",
                transaction_type := pyDictGet d "transaction_type",
                quantity := q,
                product := pyDictGet d "product",
                order_type := pyDictGet d "order_type" }
  | v => .error (pyTypeName v ++ " object has no attribute 'get'")

/-- Embeds `place_order` (src/main.py:128-150).  The whole body of the
`try` — argument evaluation, the external call, and the
`order_response['order_id']` index — is covered by one `except` that
yields 400 with the message prefixed by `Order placement failed: `.  An
exception during argument evaluation (for instance a non-numeric
quantity) happens before `kite.place_order`, so no external call is
attempted. -/
def place_order (b : Broker) (tok : Value) (s : Session) (req : HttpRequest) : StepResult :=
  match buildOrderParams req.jsonBody with
  | .error e =>
      { response := .json 400 (.obj [("error", .str ("Order placement failed: " ++ e))]),
        session := s, calls := [] }
  | .ok params =>
      match b.place_order tok params with
      | .error e =>
          { response := .json 400 (.obj [("error", .str ("Order placement failed: " ++ e))]),
            session := s, calls := [ExtCall.place_order tok params] }
      | .ok resp =>
          match lookupKey resp "order_id" with
          | none =>
              { response := .json 400 (.obj [("error", .str "Order placement failed: 'order_id'")]),
                session := s, calls := [ExtCall.place_order tok params] }
          | some oid =>
              { response := .json 200 (.obj [("status", .str "success"), ("order_id", oid)]),
                session := s, calls := [ExtCall.place_order tok params] }

/-- Dispatch to the route handler after the gate has passed.  `bound` is
the credential the gate bound to the client (`some` on every `/api/`
path).  Unmatched path/method pairs get the framework 404 page. -/
def routeRequest (b : Broker) (fe : String) (bound : Option Value) (s : Session)
    (req : HttpRequest) : StepResult :=
  match req.path, req.method with
  | "/login", "GET" => login b s
  | "/callback", "GET" => callback b fe s req
  | "/api/check_auth", "GET" => check_auth s
  | "/api/profile", "GET" => get_profile b (bound.getD .null) s
  | "/api/holdings", "GET" => get_holdings b (bound.getD .null) s
  | "/api/orders", "POST" => place_order b (bound.getD .null) s req
  | _, _ => { response := .notFound, session := s, calls := [] }

/-- Full handling of one HTTP request by the app: Flask runs
`before_api_request` first (also for paths that will 404); if it returns
a response the route handler is never invoked, otherwise the request is
dispatched to its handler.  `fe` is the configured front-end URL. -/
def appDispatch (b : Broker) (fe : String) (s : Session) (req : HttpRequest) : StepResult :=
  match before_api_request b s req with
  | .halt r => r
  | .pass bound => routeRequest b fe bound s req

/-- A concrete broker oracle for evaluating the app on closed inputs:
credential binding succeeds, every network call raises. -/
def trivBroker : Broker :=
  { login_url := "https://kite.example/connect/login",
    generate_session := fun _ => .error "gsfail",
    set_access_token := fun _ => .ok (),
    profile := fun _ => .error "pfail",
    margins := fun _ => .error "mfail",
    holdings := fun _ => .error "hfail",
    place_order := fun _ _ => .error "ofail" }

/-- A concrete broker oracle whose credential binding raises. -/
def bindFailBroker : Broker :=
  { trivBroker with set_access_token := fun _ => .error "token expired" }

/-- A concrete broker oracle on which every call succeeds; the order
placement answers with order id `OID1`, as in the spec scenario. -/
def okBroker : Broker :=
  { login_url := "https://kite.example/connect/login",
    generate_session := fun _ => .ok [("access_token", .str "tok1"), ("user_id", .str "u1")],
    set_access_token := fun _ => .ok (),
    profile := fun _ => .ok [("user_name", .str "N")],
    margins := fun _ => .ok (.num 100),
    holdings := fun _ => .ok (.arr []),
    place_order := fun _ _ => .ok [("order_id", .str "OID1")] }

/-- Claim C1: for every HTTP request to a protected route (path
beginning with `/api/`) whose session does not contain an access token,
the response is a 401 with an error body, the route handler is never
invoked, and no external (broker) call is attempted.  The result is
independent of the broker oracle `b` (so no handler and no external
behaviour can influence it), the call trace is empty, and the session is
untouched. -/
theorem gate_blocks_unauthenticated (b : Broker) (fe : String) (s : Session)
    (req : HttpRequest)
    (hpath : strStartsWith req.path "/api/" = true)
    (htok : lookupKey s "access_token" = none) :
    appDispatch b fe s req =
      { response := .json 401 (.obj [("error", .str "Not authenticated")]),
        session := s, calls := [] } := by
  simp [appDispatch, before_api_request, hpath, htok]

/-- Witness for C1: the empty session requesting `GET /api/profile`. -/
theorem gate_blocks_unauthenticated_witness :
    appDispatch trivBroker "F" [] ⟨"/api/profile", "GET", [], .null⟩ =
      { response := .json 401 (.obj [("error", .str "Not authenticated")]),
        session := [], calls := [] } :=
  gate_blocks_unauthenticated trivBroker "F" [] ⟨"/api/profile", "GET", [], .null⟩ rfl rfl

/-- Counterexample to C2: `/api/check_auth` starts with `/api/`, so the
`before_request` gate intercepts it.  On a session without a token the
response body is `{"error": "Not authenticated"}`, not
`{"authenticated": false}` as the claim states; and on a session holding
a token whose binding raises, the response is 401, not 200. -/
theorem check_auth_unauthenticated_body :
    (appDispatch trivBroker "F" [] ⟨"/api/check_auth", "GET", [], .null⟩).response =
      .json 401 (.obj [("error", .str "Not authenticated")]) ∧
    (Value.obj [("error", .str "Not authenticated")] ≠
      Value.obj [("authenticated", .bool false)]) ∧
    (appDispatch bindFailBroker "F" [("access_token", .str "t")]
        ⟨"/api/check_auth", "GET", [], .null⟩).response =
      .json 401 (.obj [("error", .str "Session expired or invalid: token expired")]) :=
  ⟨rfl, by simp, rfl⟩

/-- Claim C2 (amended): check-authentication makes no external call;
with an access token in the session and a successful credential binding
it returns 200 `{authenticated: true, user_id: <stored user id, null if
absent>}`.  Without a token the `before_request` gate short-circuits
with 401 and body `{"error": "Not authenticated"}` (the handler's
`{authenticated: false}` body is unreachable over HTTP); with a token
whose binding raises, the gate returns 401 and clears the session. -/
theorem check_auth_gated_spec (b : Broker) (fe : String) (s : Session) :
    (∀ tok, lookupKey s "access_token" = some tok → b.set_access_token tok = .ok () →
      appDispatch b fe s ⟨"/api/check_auth", "GET", [], .null⟩ =
        { response := .json 200 (.obj [("authenticated", .bool true),
            ("user_id", pyDictGet s "user_id")]),
          session := s, calls := [] }) ∧
    (lookupKey s "access_token" = none →
      appDispatch b fe s ⟨"/api/check_auth", "GET", [], .null⟩ =
        { response := .json 401 (.obj [("error", .str "Not authenticated")]),
          session := s, calls := [] }) ∧
    (∀ tok e, lookupKey s "access_token" = some tok → b.set_access_token tok = .error e →
      appDispatch b fe s ⟨"/api/check_auth", "GET", [], .null⟩ =
        { response := .json 401 (.obj [("error", .str ("Session expired or invalid: " ++ e))]),
          session := [], calls := [] }) := by
  refine ⟨?_, ?_, ?_⟩
  · intro tok htok hbind
    simp [appDispatch, before_api_request, routeRequest, check_auth, htok, hbind,
      show strStartsWith "/api/check_auth" "/api/" = true from rfl]
  · intro htok
    simp [appDispatch, before_api_request, htok,
      show strStartsWith "/api/check_auth" "/api/" = true from rfl]
  · intro tok e htok hbind
    simp [appDispatch, before_api_request, htok, hbind,
      show strStartsWith "/api/check_auth" "/api/" = true from rfl]

/-- Witness for C2 (amended): a session holding token `t` and user id
`u` gets 200 with the stored user id. -/
theorem check_auth_gated_spec_witness :
    appDispatch trivBroker "F" [("access_token", .str "t"), ("user_id", .str "u")]
        ⟨"/api/check_auth", "GET", [], .null⟩ =
      { response := .json 200 (.obj [("authenticated", .bool true), ("user_id", .str "u")]),
        session := [("access_token", .str "t"), ("user_id", .str "u")], calls := [] } :=
  (check_auth_gated_spec trivBroker "F"
    [("access_token", .str "t"), ("user_id", .str "u")]).1 (.str "t") rfl rfl

/-- Counterexample to C3: a failed exchange leaves the session exactly
as it was, not empty.  On a session that already held a token (a logged
in user re-entering the callback) the 400 response is produced but the
session still contains both the access token and the user id, and a
subsequent check-authentication call even reports `authenticated:
true`. -/
theorem callback_failure_preexisting_session :
    (appDispatch trivBroker "F" [("access_token", Value.str "old"), ("user_id", Value.str "u0")]
        ⟨"/callback", "GET", [("request_token", "rt")], .null⟩).response =
      .json 400 (.obj [("error", .str "Authentication failed: gsfail")]) ∧
    (appDispatch trivBroker "F" [("access_token", Value.str "old"), ("user_id", Value.str "u0")]
        ⟨"/callback", "GET", [("request_token", "rt")], .null⟩).session =
      [("access_token", Value.str "old"), ("user_id", Value.str "u0")] ∧
    lookupKey [("access_token", Value.str "old"), ("user_id", Value.str "u0")] "access_token" =
      some (Value.str "old") ∧
    lookupKey [("access_token", Value.str "old"), ("user_id", Value.str "u0")] "user_id" =
      some (Value.str "u0") ∧
    (appDispatch trivBroker "F" [("access_token", Value.str "old"), ("user_id", Value.str "u0")]
        ⟨"/api/check_auth", "GET", [], .null⟩).response =
      .json 200 (.obj [("authenticated", .bool true), ("user_id", .str "u0")]) :=
  ⟨rfl, rfl, rfl, rfl, rfl⟩

/-- Claim C3 (amended): a failed token exchange during the callback
leaves the session unchanged.  In particular, when the session held
neither an access token nor a user id before the callback, after the 400
response it still holds neither, and a subsequent check-authentication
call on the same session is answered 401 (not authenticated). -/
theorem callback_exchange_failure_leaves_session (b : Broker) (fe : String) (s : Session)
    (tok e : String)
    (hne : tok ≠ "")
    (hfail : b.generate_session tok = .error e)
    (hat : lookupKey s "access_token" = none)
    (huid : lookupKey s "user_id" = none) :
    appDispatch b fe s ⟨"/callback", "GET", [("request_token", tok)], .null⟩ =
      { response := .json 400 (.obj [("error", .str ("Authentication failed: " ++ e))]),
        session := s, calls := [ExtCall.generate_session tok] } ∧
    lookupKey s "access_token" = none ∧
    lookupKey s "user_id" = none ∧
    (appDispatch b fe s ⟨"/api/check_auth", "GET", [], .null⟩).response =
      .json 401 (.obj [("error", .str "Not authenticated")]) := by
  refine ⟨?_, hat, huid, ?_⟩
  · simp [appDispatch, before_api_request, routeRequest, callback, argsGet, hne, hfail,
      show strStartsWith "/callback" "/api/" = false from rfl]
  · simp [appDispatch, before_api_request, hat,
      show strStartsWith "/api/check_auth" "/api/" = true from rfl]

/-- Witness for C3 (amended): the empty session, request token `rt`,
and a broker whose exchange raises `gsfail`. -/
theorem callback_exchange_failure_leaves_session_witness :
    appDispatch trivBroker "F" [] ⟨"/callback", "GET", [("request_token", "rt")], .null⟩ =
      { response := .json 400 (.obj [("error", .str "Authentication failed: gsfail")]),
        session := [], calls := [ExtCall.generate_session "rt"] } :=
  (callback_exchange_failure_leaves_session trivBroker "F" [] "rt" "gsfail"
    (by decide) rfl rfl rfl).1

/-- Claim C4: when binding the stored credential raises during the gate
on a protected request, the whole session is cleared (it becomes the
empty dict, every field gone) before the 401 response, no external call
is attempted, and a subsequent check-authentication call on the cleared
session is answered 401 (not authenticated). -/
theorem gate_binding_failure_clears_session (b : Broker) (fe : String) (s : Session)
    (req : HttpRequest) (tok : Value) (e : String)
    (hpath : strStartsWith req.path "/api/" = true)
    (htok : lookupKey s "access_token" = some tok)
    (hbind : b.set_access_token tok = .error e) :
    appDispatch b fe s req =
      { response := .json 401 (.obj [("error", .str ("Session expired or invalid: " ++ e))]),
        session := [], calls := [] } ∧
    (appDispatch b fe [] ⟨"/api/check_auth", "GET", [], .null⟩).response =
      .json 401 (.obj [("error", .str "Not authenticated")]) := by
  refine ⟨?_, rfl⟩
  simp [appDispatch, before_api_request, hpath, htok, hbind]

/-- Witness for C4: a session holding token `t`, a broker whose binding
raises `token expired`, requesting `GET /api/holdings`. -/
theorem gate_binding_failure_clears_session_witness :
    appDispatch bindFailBroker "F" [("access_token", .str "t")]
        ⟨"/api/holdings", "GET", [], .null⟩ =
      { response := .json 401 (.obj [("error", .str "Session expired or invalid: token expired")]),
        session := [], calls := [] } :=
  (gate_binding_failure_clears_session bindFailBroker "F" [("access_token", .str "t")]
    ⟨"/api/holdings", "GET", [], .null⟩ (.str "t") "token expired" rfl rfl rfl).1

/-- Claim C5: a place-order request behind a passing gate whose quantity
field does not coerce to an integer gets a 400 response with a
validation message, and the external order-placement call is never made
(the call trace is empty). -/
theorem place_order_bad_quantity_no_call (b : Broker) (fe : String) (s : Session)
    (d : List (String × Value)) (tok : Value) (e : String)
    (htok : lookupKey s "access_token" = some tok)
    (hbind : b.set_access_token tok = .ok ())
    (hq : pyInt (pyDictGet d "quantity") = .error e) :
    appDispatch b fe s ⟨"/api/orders", "POST", [], .obj d⟩ =
      { response := .json 400 (.obj [("error", .str ("Order placement failed: " ++ e))]),
        session := s, calls := [] } := by
  simp [appDispatch, before_api_request, routeRequest, place_order, buildOrderParams,
    htok, hbind, hq, show strStartsWith "/api/orders" "/api/" = true from rfl]

/-- Witness for C5: quantity `"abc"` on a session holding token `t`. -/
theorem place_order_bad_quantity_no_call_witness :
    appDispatch trivBroker "F" [("access_token", .str "t")]
        ⟨"/api/orders", "POST", [], .obj [("quantity", .str "abc")]⟩ =
      { response := .json 400 (.obj [("error",
          .str "Order placement failed: invalid literal for int() with base 10: 'abc'")]),
        session := [("access_token", .str "t")], calls := [] } :=
  place_order_bad_quantity_no_call trivBroker "F" [("access_token", .str "t")]
    [("quantity", .str "abc")] (.str "t")
    "invalid literal for int() with base 10: 'abc'" rfl rfl rfl

/-- Claim C6: get-profile behind a passing gate.  When both external
calls succeed the trace is exactly `[profile, margins]` and the body is
the profile dict with the margins result stored under the key
`margins`; when the profile call raises, the margins call is not
attempted and the response is 500 carrying the external message; when
the margins call raises (after a successful profile call) the response
is likewise 500 carrying the external message. -/
theorem get_profile_calls_and_merge (b : Broker) (fe : String) (s : Session) (tok : Value)
    (htok : lookupKey s "access_token" = some tok)
    (hbind : b.set_access_token tok = .ok ()) :
    (∀ p m, b.profile tok = .ok p → b.margins tok = .ok m →
      appDispatch b fe s ⟨"/api/profile", "GET", [], .null⟩ =
        { response := .json 200 (.obj (setKey p "margins" m)),
          session := s, calls := [ExtCall.profile tok, ExtCall.margins tok] }) ∧
    (∀ e, b.profile tok = .error e →
      appDispatch b fe s ⟨"/api/profile", "GET", [], .null⟩ =
        { response := .json 500 (.obj [("error", .str ("Failed to fetch profile: " ++ e))]),
          session := s, calls := [ExtCall.profile tok] }) ∧
    (∀ p e, b.profile tok = .ok p → b.margins tok = .error e →
      appDispatch b fe s ⟨"/api/profile", "GET", [], .null⟩ =
        { response := .json 500 (.obj [("error", .str ("Failed to fetch profile: " ++ e))]),
          session := s, calls := [ExtCall.profile tok, ExtCall.margins tok] }) := by
  refine ⟨?_, ?_, ?_⟩
  · intro p m hp hm
    simp [appDispatch, before_api_request, routeRequest, get_profile, htok, hbind, hp, hm,
      show strStartsWith "/api/profile" "/api/" = true from rfl]
  · intro e hp
    simp [appDispatch, before_api_request, routeRequest, get_profile, htok, hbind, hp,
      show strStartsWith "/api/profile" "/api/" = true from rfl]
  · intro p e hp hm
    simp [appDispatch, before_api_request, routeRequest, get_profile, htok, hbind, hp, hm,
      show strStartsWith "/api/profile" "/api/" = true from rfl]

/-- Witness for C6: a broker answering both calls; the merged body puts
the margins under the `margins` key after the profile fields. -/
theorem get_profile_calls_and_merge_witness :
    appDispatch okBroker "F" [("access_token", .str "t")] ⟨"/api/profile", "GET", [], .null⟩ =
      { response := .json 200 (.obj [("user_name", .str "N"), ("margins", .num 100)]),
        session := [("access_token", .str "t")],
        calls := [ExtCall.profile (.str "t"), ExtCall.margins (.str "t")] } :=
  (get_profile_calls_and_merge okBroker "F" [("access_token", .str "t")] (.str "t")
    rfl rfl).1 [("user_name", .str "N")] (.num 100) rfl rfl

/-- Counterexample to C7: the upstream message is not forwarded
verbatim.  A profile call raising `pfail` produces the body string
`Failed to fetch profile: pfail`, which differs from `pfail`. -/
theorem upstream_message_not_verbatim :
    (appDispatch trivBroker "F" [("access_token", Value.str "t")]
        ⟨"/api/profile", "GET", [], .null⟩).response =
      .json 500 (.obj [("error", .str "Failed to fetch profile: pfail")]) ∧
    ("Failed to fetch profile: pfail" : String) ≠ "pfail" :=
  ⟨rfl, by decide⟩

/-- Claim C7 (amended): on every failing external call on a protected
route the upstream exception message is embedded verbatim and unmodified
as the suffix of the error string, after a fixed route-specific leading
text: `Failed to fetch profile: `, `Failed to fetch holdings: `, and
`Order placement failed: ` respectively. -/
theorem upstream_message_prefixed (b : Broker) (fe : String) (s : Session) (tok : Value)
    (e : String) (d : List (String × Value)) (params : OrderParams)
    (htok : lookupKey s "access_token" = some tok)
    (hbind : b.set_access_token tok = .ok ()) :
    (b.profile tok = .error e →
      (appDispatch b fe s ⟨"/api/profile", "GET", [], .null⟩).response =
        .json 500 (.obj [("error", .str ("Failed to fetch profile: " ++ e))])) ∧
    (b.holdings tok = .error e →
      (appDispatch b fe s ⟨"/api/holdings", "GET", [], .null⟩).response =
        .json 500 (.obj [("error", .str ("Failed to fetch holdings: " ++ e))])) ∧
    (buildOrderParams (.obj d) = .ok params → b.place_order tok params = .error e →
      (appDispatch b fe s ⟨"/api/orders", "POST", [], .obj d⟩).response =
        .json 400 (.obj [("error", .str ("Order placement failed: " ++ e))])) := by
  refine ⟨?_, ?_, ?_⟩
  · intro hp
    simp [appDispatch, before_api_request, routeRequest, get_profile, htok, hbind, hp,
      show strStartsWith "/api/profile" "/api/" = true from rfl]
  · intro hh
    simp [appDispatch, before_api_request, routeRequest, get_holdings, htok, hbind, hh,
      show strStartsWith "/api/holdings" "/api/" = true from rfl]
  · intro hbuild hord
    simp [appDispatch, before_api_request, routeRequest, place_order, htok, hbind,
      hbuild, hord, show strStartsWith "/api/orders" "/api/" = true from rfl]

/-- Witness for C7 (amended): a holdings call raising `hfail`. -/
theorem upstream_message_prefixed_witness :
    (appDispatch trivBroker "F" [("access_token", .str "t")]
        ⟨"/api/holdings", "GET", [], .null⟩).response =
      .json 500 (.obj [("error", .str "Failed to fetch holdings: hfail")]) :=
  (upstream_message_prefixed trivBroker "F" [("access_token", .str "t")] (.str "t")
    "hfail" [] ⟨"regular", .null, .null, .null, 0, .null, .null⟩ rfl rfl).2.1 rfl

/-- Claim C8: a callback request without a `request_token` query
parameter gets a 400 response, no external exchange call is made (the
trace is empty) and the session is unchanged; this holds for every
broker oracle. -/
theorem callback_missing_request_token (b : Broker) (fe : String) (s : Session)
    (req : HttpRequest)
    (hpath : req.path = "/callback") (hmeth : req.method = "GET")
    (hargs : argsGet req.args "request_token" = none) :
    appDispatch b fe s req =
      { response := .json 400 (.obj [("error", .str "No request token found")]),
        session := s, calls := [] } := by
  obtain ⟨p, m, a, j⟩ := req
  subst hpath hmeth
  simp only at hargs
  simp [appDispatch, before_api_request, routeRequest, callback, hargs,
    show strStartsWith "/callback" "/api/" = false from rfl]

/-- Witness for C8: a callback request with no query arguments at
all. -/
theorem callback_missing_request_token_witness :
    appDispatch trivBroker "F" [] ⟨"/callback", "GET", [], .null⟩ =
      { response := .json 400 (.obj [("error", .str "No request token found")]),
        session := [], calls := [] } :=
  callback_missing_request_token trivBroker "F" [] ⟨"/callback", "GET", [], .null⟩
    rfl rfl rfl

/-- Claim C9: a place-order request behind a passing gate whose argument
evaluation succeeds (in particular the quantity coerced to an integer)
and whose external call returns a dict holding an order id is answered
200 with body exactly `{"status": "success", "order_id": <that id>}`,
and the trace holds exactly the one order-placement call. -/
theorem place_order_success_response (b : Broker) (fe : String) (s : Session)
    (d resp : List (String × Value)) (tok oid : Value) (params : OrderParams)
    (htok : lookupKey s "access_token" = some tok)
    (hbind : b.set_access_token tok = .ok ())
    (hbuild : buildOrderParams (.obj d) = .ok params)
    (hcall : b.place_order tok params = .ok resp)
    (hoid : lookupKey resp "order_id" = some oid) :
    appDispatch b fe s ⟨"/api/orders", "POST", [], .obj d⟩ =
      { response := .json 200 (.obj [("status", .str "success"), ("order_id", oid)]),
        session := s, calls := [ExtCall.place_order tok params] } := by
  simp [appDispatch, before_api_request, routeRequest, place_order, htok, hbind,
    hbuild, hcall, hoid, show strStartsWith "/api/orders" "/api/" = true from rfl]

/-- Witness for C9: the spec scenario — body `{exchange: "NSE",
tradingsymbol: "INFY", transaction_type: "BUY", quantity: 5, product:
"CNC", order_type: "MARKET"}` against a broker answering with order id
`OID1`. -/
theorem place_order_success_response_witness :
    appDispatch okBroker "F" [("access_token", .str "t")]
        ⟨"/api/orders", "POST", [],
          .obj [("exchange", .str "NSE"), ("tradingsymbol", .str "INFY"),
            ("transaction_type", .str "BUY"), ("quantity", .num 5),
            ("product", .str "CNC"), ("order_type", .str "MARKET")]⟩ =
      { response := .json 200 (.obj [("status", .str "success"), ("order_id", .str "OID1")]),
        session := [("access_token", .str "t")],
        calls := [ExtCall.place_order (.str "t")
          ⟨"regular", .str "NSE", .str "INFY", .str "BUY", 5, .str "CNC", .str "MARKET"⟩] } :=
  place_order_success_response okBroker "F" [("access_token", .str "t")]
    [("exchange", .str "NSE"), ("tradingsymbol", .str "INFY"),
      ("transaction_type", .str "BUY"), ("quantity", .num 5),
      ("product", .str "CNC"), ("order_type", .str "MARKET")]
    [("order_id", .str "OID1")] (.str "t") (.str "OID1")
    ⟨"regular", .str "NSE", .str "INFY", .str "BUY", 5, .str "CNC", .str "MARKET"⟩
    rfl rfl rfl rfl rfl

/-- Claim C10: the gate tests only the presence of the `access_token`
session key, not its contents.  With the key bound to the empty string
the gate passes (binding the empty credential), any protected request
reaches its handler, and for `GET /api/holdings` the handler attempts
the external call with that empty credential whatever the broker
answers. -/
theorem gate_checks_presence_only (b : Broker) (fe : String) (s : Session)
    (req : HttpRequest)
    (hpath : strStartsWith req.path "/api/" = true)
    (htok : lookupKey s "access_token" = some (.str ""))
    (hbind : b.set_access_token (.str "") = .ok ()) :
    before_api_request b s req = .pass (some (.str "")) ∧
    appDispatch b fe s ⟨"/api/holdings", "GET", [], .null⟩ =
      get_holdings b (.str "") s ∧
    (get_holdings b (.str "") s).calls = [ExtCall.holdings (.str "")] := by
  refine ⟨?_, ?_, ?_⟩
  · simp [before_api_request, hpath, htok, hbind]
  · simp [appDispatch, before_api_request, routeRequest, htok, hbind,
      show strStartsWith "/api/holdings" "/api/" = true from rfl]
  · rcases hh : b.holdings (.str "") with e | v <;> simp [get_holdings, hh]

/-- Witness for C10: the session holding an empty-string token; the
holdings route attempts its external call with the empty credential. -/
theorem gate_checks_presence_only_witness :
    appDispatch trivBroker "F" [("access_token", .str "")]
        ⟨"/api/holdings", "GET", [], .null⟩ =
      get_holdings trivBroker (.str "") [("access_token", .str "")] ∧
    (get_holdings trivBroker (.str "") [("access_token", .str "")]).calls =
      [ExtCall.holdings (.str "")] :=
  ⟨(gate_checks_presence_only trivBroker "F" [("access_token", .str "")]
      ⟨"/api/holdings", "GET", [], .null⟩ rfl rfl rfl).2.1,
   (gate_checks_presence_only trivBroker "F" [("access_token", .str "")]
      ⟨"/api/holdings", "GET", [], .null⟩ rfl rfl rfl).2.2⟩

end ZerodhaPoc
